import Mathlib

/-!
Verification of the flock_it trading-strategy repository.

The indicator functions of `trading_agents/{momentum,mean_reversion,breakout,trend}`
and the orchestration logic of `trading_agents/manager.py` are shallowly embedded
below.  Prices are modelled as exact rationals (`ℚ`); the mean-reversion statistics,
which take a square root (`np.std`), are modelled over `ℝ` with `Real.sqrt`.
Python list indexing/slicing conventions (negative indices, `l[-k:]`, `l[:-k]`)
are reproduced by the `py*` helpers.
-/

/-- Python `l[-k:]`.  For `k = 0` Python yields the whole list (`-0 == 0`),
otherwise the last `k` elements (the whole list when `k ≥ len(l)`). -/
def pySliceLast {α : Type} (l : List α) (k : Nat) : List α :=
  if k = 0 then l else l.drop (l.length - k)

/-- Python `l[:-k]`.  For `k = 0` Python yields the empty list (`l[:0]`),
otherwise all but the last `k` elements. -/
def pyDropLast {α : Type} (l : List α) (k : Nat) : List α :=
  if k = 0 then [] else l.take (l.length - k)

/-- Python `l[-k]` for a price list: `l[0]` when `k = 0` (`-0 == 0`), else the
`k`-th element from the end.  Out-of-range access (a Python `IndexError`)
defaults to `0`. -/
def pyNegIdx (l : List ℚ) (k : Nat) : ℚ :=
  if k = 0 then l.headD 0 else l.getD (l.length - k) 0

/-- `np.mean` over rationals: sum divided by length (`0` on the empty list,
where numpy would produce NaN). -/
def pyMean (l : List ℚ) : ℚ := l.sum / l.length

/-- `np.diff(prices)`: consecutive differences `prices[i+1] - prices[i]`. -/
def pyDiff (prices : List ℚ) : List ℚ :=
  List.zipWith (fun a b => a - b) prices.tail prices

/-- `np.min` of a list (numpy raises on the empty list; we default to 0). -/
def pyMin (l : List ℚ) : ℚ :=
  match l with
  | [] => 0
  | a :: t => t.foldl min a

/-- `np.max` of a list (numpy raises on the empty list; we default to 0). -/
def pyMax (l : List ℚ) : ℚ :=
  match l with
  | [] => 0
  | a :: t => t.foldl max a

/-!  ## Momentum strategy — `momentum.py`  -/

/-- `MomentumStrategyAgent._calculate_price_changes` (momentum.py lines 83-100):
returns `(0, 0)` when `len(prices) < long_term_periods`, otherwise the
percentage changes of `prices[-1]` against `prices[-short_term_periods]`
and `prices[-long_term_periods]`. -/
def calculate_price_changes (prices : List ℚ) (short_term_periods long_term_periods : Nat) :
    ℚ × ℚ :=
  if prices.length < long_term_periods then (0, 0)
  else
    let current_price := prices.getLastD 0
    let short_term_price := pyNegIdx prices short_term_periods
    let long_term_price := pyNegIdx prices long_term_periods
    ((current_price - short_term_price) / short_term_price * 100,
     (current_price - long_term_price) / long_term_price * 100)

/-- Per-token body of `MomentumStrategyAgent.generate_trading_signals`
(momentum.py lines 69-76): a signal is appended iff
`abs(short_term_change) > threshold and abs(long_term_change) > threshold`,
with direction `"Upward" if short_term_change > 0 else "Downward"`. -/
def momentum_signal (prices : List ℚ) (short_term_periods long_term_periods : Nat)
    (threshold : ℚ) : Option String :=
  let c := calculate_price_changes prices short_term_periods long_term_periods
  if threshold < |c.1| ∧ threshold < |c.2| then
    some (if 0 < c.1 then "Upward" else "Downward")
  else none

/-!  ## Trend-following strategy — `trend.py`  -/

/-- The `avg_gain` local of `TrendFollowingAgent._calculate_rsi`:
`np.mean(gains[-periods:])` where `gains = np.where(deltas > 0, deltas, 0)`. -/
def avgGain (prices : List ℚ) (periods : Nat) : ℚ :=
  pyMean (pySliceLast ((pyDiff prices).map (fun d => if 0 < d then d else 0)) periods)

/-- The `avg_loss` local of `TrendFollowingAgent._calculate_rsi`:
`np.mean(losses[-periods:])` where `losses = np.where(deltas < 0, -deltas, 0)`. -/
def avgLoss (prices : List ℚ) (periods : Nat) : ℚ :=
  pyMean (pySliceLast ((pyDiff prices).map (fun d => if d < 0 then -d else 0)) periods)

/-- `TrendFollowingAgent._calculate_rsi` (trend.py lines 107-124): `50.0` on
insufficient history, `100.0` when `avg_loss == 0`, otherwise
`100 - 100 / (1 + avg_gain / avg_loss)`. -/
def calculate_rsi (prices : List ℚ) (periods : Nat) : ℚ :=
  if prices.length < periods + 1 then 50
  else if avgLoss prices periods = 0 then 100
  else 100 - 100 / (1 + avgGain prices periods / avgLoss prices periods)

/-!  ## Mean-reversion strategy — `mean_reversion.py`

`np.std` takes a square root, so these definitions live over `ℝ`. -/

/-- The `mean` local of `MeanReversionStrategyAgent._calculate_statistics`:
`np.mean(prices[-lookback:])`. -/
noncomputable def windowMean (prices : List ℝ) (lookback : Nat) : ℝ :=
  (pySliceLast prices lookback).sum / (pySliceLast prices lookback).length

/-- The `std_dev` local of `_calculate_statistics`: `np.std(prices[-lookback:])`,
the population standard deviation. -/
noncomputable def windowStd (prices : List ℝ) (lookback : Nat) : ℝ :=
  Real.sqrt
    (((pySliceLast prices lookback).map (fun x => (x - windowMean prices lookback) ^ 2)).sum /
      (pySliceLast prices lookback).length)

/-- `MeanReversionStrategyAgent._calculate_statistics` (mean_reversion.py lines
80-96): returns `(0.0, 0.0, 0.0)` when `len(prices) < lookback`, otherwise
`(mean, std_dev, z_score)` with the division-by-zero guard
`z_score = (current - mean) / std_dev if std_dev > 0 else 0`. -/
noncomputable def calculate_statistics (prices : List ℝ) (lookback : Nat) : ℝ × ℝ × ℝ :=
  if prices.length < lookback then (0, 0, 0)
  else
    (windowMean prices lookback, windowStd prices lookback,
     if 0 < windowStd prices lookback then
       (prices.getLastD 0 - windowMean prices lookback) / windowStd prices lookback
     else 0)

/-!  ## Breakout strategy — `breakout.py`  -/

/-- `BreakoutStrategyAgent._calculate_support_resistance` (breakout.py lines
89-104): `(0.0, 0.0)` on insufficient history, otherwise the rolling min/max
of `prices[-lookback:]`. -/
def calculate_support_resistance (prices : List ℚ) (lookback : Nat) : ℚ × ℚ :=
  if prices.length < lookback then (0, 0)
  else (pyMin (pySliceLast prices lookback), pyMax (pySliceLast prices lookback))

/-- `BreakoutStrategyAgent._detect_breakout` (breakout.py lines 106-145):
levels are computed on `prices[:-confirmation_periods]`; an `"Upward"`
(`"Downward"`) breakout fires when every confirmation price stays above
resistance (below support) and the excursion of the current price beyond the
level exceeds `breakout_threshold` percent.  (The source also computes an
unused `avg_confirmation_price`, dead code we omit.) -/
def detect_breakout (prices : List ℚ) (lookback_periods confirmation_periods : Nat)
    (breakout_threshold : ℚ) : Option (String × ℚ × ℚ) :=
  if prices.length < lookback_periods + confirmation_periods then none
  else
    let sr := calculate_support_resistance (pyDropLast prices confirmation_periods)
                lookback_periods
    let support := sr.1
    let resistance := sr.2
    let confirmation_prices := pySliceLast prices confirmation_periods
    let current_price := confirmation_prices.getLastD 0
    if (confirmation_prices.all (fun p => decide (resistance < p))) = true ∧
        breakout_threshold < (current_price - resistance) / resistance * 100 then
      some ("Upward", resistance, (current_price - resistance) / resistance * 100)
    else if (confirmation_prices.all (fun p => decide (p < support))) = true ∧
        breakout_threshold < (support - current_price) / support * 100 then
      some ("Downward", support, (support - current_price) / support * 100)
    else none

/-!  ## Threshold optimization — `base_strategy.py`  -/

/-- Python substring test `pat in hay` on character lists. -/
def containsSub (pat : List Char) : List Char → Bool
  | [] => pat.isEmpty
  | c :: rest => pat.isPrefixOf (c :: rest) || containsSub pat rest

/-- Python `"pat" in rules` for strings. -/
def strContains (hay pat : String) : Bool := containsSub pat.toList hay.toList

/-- Python `s.lower()` (ASCII; the rule keywords searched for are ASCII). -/
def pyLower (s : String) : String := s.map Char.toLower

/-- The `base_adjustment` local of
`BaseStrategyAgent._calculate_strategy_adjustment` (base_strategy.py lines
236-291) before the final clamp: the strategy-family `if/elif` chain followed
by the volume-based adjustment applied to all strategies. -/
def strategyAdjustmentRaw (volatility volume_change : ℚ) (strategy_rules : String) : ℚ :=
  let rules := pyLower strategy_rules
  let base : ℚ := 1
  let base :=
    if strContains rules "momentum" then
      if 5 < volatility then base * 0.9
      else if volatility < 1 then base * 1.1
      else base
    else if strContains rules "reversion" then
      if 5 < volatility then base * 1.1
      else if volatility < 1 then base * 0.9
      else base
    else if strContains rules "breakout" then
      let base := if 3 < volatility then base * 0.95 else base
      if 100 < |volume_change| then base * 0.9 else base
    else if strContains rules "swing" then
      if 2 ≤ volatility ∧ volatility ≤ 4 then base * 0.95 else base * 1.1
    else if strContains rules "trend" then
      if volatility < 2 then base * 1.1
      else if 50 < volume_change then base * 0.95
      else base
    else if strContains rules "news" then
      if 200 < |volume_change| then base * 0.9
      else if 5 < volatility then base * 0.95
      else base
    else if strContains rules "algorithmic" then
      if 1 ≤ volatility ∧ volatility ≤ 3 then base * 0.95
      else if 150 < |volume_change| then base * 1.1
      else base
    else base
  if 50 < |volume_change| then
    base * (if 0 < volume_change then 1.05 else 0.95)
  else base

/-- `BaseStrategyAgent._calculate_strategy_adjustment` (base_strategy.py lines
219-294): the raw adjustment clamped by `max(0.5, min(1.5, base_adjustment))`. -/
def calculate_strategy_adjustment (volatility volume_change : ℚ)
    (strategy_rules : String) : ℚ :=
  max 0.5 (min 1.5 (strategyAdjustmentRaw volatility volume_change strategy_rules))

/-- Python truthiness of an optional Decimal: `None` and `Decimal("0")` are
falsy. -/
def decimalTruthy (o : Option ℚ) : Bool :=
  match o with
  | none => false
  | some x => decide (x ≠ 0)

/-- The `adjustment` local of `BaseStrategyAgent._apply_risk_bounds`
(base_strategy.py lines 302-309) before the final clamp: nudged by the
take-profit / stop-loss ratio when both are set (and truthy). -/
def riskAdjustmentRaw (adjustment : ℚ) (stop_loss take_profit : Option ℚ) : ℚ :=
  if decimalTruthy stop_loss && decimalTruthy take_profit then
    let riskQuot := take_profit.getD 0 / stop_loss.getD 0
    if riskQuot < 2 then adjustment * 1.1
    else if 5 < riskQuot then adjustment * 0.9
    else adjustment
  else adjustment

/-- `BaseStrategyAgent._apply_risk_bounds` (base_strategy.py lines 296-311):
the risk-nudged adjustment clamped by `max(0.5, min(2.0, adjustment))`. -/
def apply_risk_bounds (adjustment : ℚ) (stop_loss take_profit : Option ℚ) : ℚ :=
  max 0.5 (min 2 (riskAdjustmentRaw adjustment stop_loss take_profit))

/-- `BaseStrategyAgent._suggest_optimal_threshold` (base_strategy.py lines
210-217), final steps: `base_threshold = max(1.0, min(5.0, threshold *
avg_adjustment))`, returned as `base_threshold * jitter` where `jitter` is
`random.uniform(0.98, 1.02)`.  `avg_adjustment` abstracts the average of the
per-token risk-bounded adjustments (1.0 when there are no tokens). -/
def suggest_optimal_threshold (threshold avg_adjustment jitter : ℚ) : ℚ :=
  max 1 (min 5 (threshold * avg_adjustment)) * jitter

/-- `BaseStrategyAgent.optimize_parameters` (base_strategy.py lines 149-152):
the stored threshold is `max(1.0, min(5.0, suggested))`. -/
def optimize_parameters (threshold avg_adjustment jitter : ℚ) : ℚ :=
  max 1 (min 5 (suggest_optimal_threshold threshold avg_adjustment jitter))

/-!  ## Orchestrator — `manager.py`

`StrategyManager.start` (manager.py lines 108-170) is straight-line async
code: one initial `process_message` on the base agent, one call to
`process_strategy_response` (the activation policy), a single `for` pass over
the returned names activating and evaluating each new strategy sequentially,
then one summary prompt built from `self.strategy_responses`.  The whole body
sits in a single `try` whose `except` logs the error and re-raises.

External calls (`process_message` of the base agent and of each strategy
agent, and the policy) are modelled as `Except String String`-valued inputs;
an `Except.error` models a raised exception. -/

/-- Result of the activation `for` loop of `StrategyManager.start`:
the names whose evaluation was attempted, in order, and either the
insertion-ordered `strategy_responses` pairs (success) or the uncaught
exception. -/
structure RunResult where
  evaluated : List String
  outcome : Except String (List (String × String))
  deriving Repr

/-- The `for strategy_name in strategies_to_activate` loop of
`StrategyManager.start` (manager.py lines 118-148): names already in
`active_strategies` are skipped; otherwise `self.strategies[strategy_name]`
is looked up (a `KeyError` for unknown names), the agent is inserted into
`active_strategies`, and its `process_message` result is stored in
`strategy_responses`; an exception propagates out of the loop. -/
def activationPass (strategies : String → Bool) (evalS : String → Except String String) :
    List String → List String → List (String × String) → RunResult
  | [], _, responses => ⟨[], Except.ok responses⟩
  | name :: rest, active, responses =>
    if name ∈ active then activationPass strategies evalS rest active responses
    else if strategies name then
      match evalS name with
      | Except.error e => ⟨[name], Except.error e⟩
      | Except.ok r =>
        let res := activationPass strategies evalS rest (active ++ [name])
                     (responses ++ [(name, r)])
        ⟨name :: res.evaluated, res.outcome⟩
    else ⟨[], Except.error ("KeyError: " ++ name)⟩

/-- Observable trace of one `StrategyManager.start` run: how many times the
activation policy (`process_strategy_response`) was invoked, which strategy
evaluations were attempted, and the published combined report (the
insertion-ordered `strategy_responses` pairs) or the uncaught exception. -/
structure StartTrace where
  policyInvocations : Nat
  evaluated : List String
  outcome : Except String (List (String × String))
  deriving Repr

/-- `StrategyManager.start` (manager.py lines 108-170).  `strategies` is
membership in `self.strategies`; `baseResponse` the initial
`base_agent.process_message` outcome; `policy` the
`process_strategy_response` outcome on that response; `evalS` each strategy
agent's `process_message` outcome.  Any raised exception reaches the single
outer `except`, is logged and re-raised (`Except.error`); on success the
combined report is assembled from `strategy_responses` in insertion order. -/
def managerStart (strategies : String → Bool) (baseResponse : Except String String)
    (policy : String → Except String (List String))
    (evalS : String → Except String String) : StartTrace :=
  match baseResponse with
  | Except.error e => ⟨0, [], Except.error e⟩
  | Except.ok resp =>
    match policy resp with
    | Except.error e => ⟨1, [], Except.error e⟩
    | Except.ok strategies_to_activate =>
      let res := activationPass strategies evalS strategies_to_activate [] []
      ⟨1, res.evaluated, res.outcome⟩

/-- The sequence of strategy names newly inserted into `active_strategies`
when the activation loop processes the given names against the given active
set: first occurrences of not-yet-active names, in list order. -/
def newNames : List String → List String → List String
  | [], _ => []
  | n :: rest, active =>
    if n ∈ active then newNames rest active
    else n :: newNames rest (active ++ [n])

/-!  ## Activation-line parsing — `manager.py` `extract_strategies`  -/

/-- Python `line.upper()` (ASCII case map; the scanned keyword is ASCII). -/
def pyUpper (s : String) : String := s.map Char.toUpper

/-- The loop test of `extract_strategies`:
`line.upper().startswith('ACTIVATE:')`. -/
def isActivateLine (line : String) : Bool :=
  (pyUpper line).startsWith "ACTIVATE:"

/-- Python `line.split(':', 1)[1]`: everything after the first `':'`
(the guard guarantees one exists). -/
def afterFirstColon (line : String) : String :=
  String.mk ((line.toList.dropWhile (fun c => c != ':')).tail)

/-- The delimiter set of `strip('[](){}"\x27\x60 \t\n')` in
`extract_strategies`: brackets, braces, quotes, backtick and whitespace. -/
def stripSet : List Char :=
  ['[', ']', '(', ')', Char.ofNat 123, Char.ofNat 125, Char.ofNat 34,
   Char.ofNat 39, Char.ofNat 96, Char.ofNat 32, Char.ofNat 9, Char.ofNat 10]

/-- Python `s.strip(chars)`: remove leading and trailing characters drawn
from the set. -/
def pyStrip (s : String) (cs : List Char) : String :=
  String.mk
    (((s.toList.dropWhile (fun c => cs.contains c)).reverse.dropWhile
        (fun c => cs.contains c)).reverse)

/-- The whitespace set of Python `str.strip()` with no argument
(space, tab, newline, carriage return, vertical tab, form feed). -/
def wsSet : List Char :=
  [Char.ofNat 32, Char.ofNat 9, Char.ofNat 10, Char.ofNat 13,
   Char.ofNat 11, Char.ofNat 12]

/-- Python `s.strip()`. -/
def pyStripWs (s : String) : String := pyStrip s wsSet

/-- The body executed for a matching line in `extract_strategies`
(manager.py line 191-193): take the text after the first `':'`, strip the
delimiter set, split on commas, strip whitespace from each element. -/
def processActivateLine (line : String) : List String :=
  ((pyStrip (afterFirstColon line) stripSet).splitOn ",").map pyStripWs

/-- The `for line in text.split('\n')` loop of `extract_strategies`:
return on the first matching line, else fall through to `[]`. -/
def extractFromLines : List String → List String
  | [] => []
  | line :: rest =>
    if isActivateLine line then processActivateLine line
    else extractFromLines rest

/-- `extract_strategies` (manager.py lines 172-195). -/
def extract_strategies (text : String) : List String :=
  extractFromLines (text.splitOn "\n")

/-- Restatement of `extract_strategies` following the specification's words:
scan the lines in order; for the first line whose uppercased text starts with
`ACTIVATE:`, return the processed comma-split list; if no line matches,
return the empty list. -/
def extractStrategiesSpec (text : String) : List String :=
  ((text.splitOn "\n").find? isActivateLine).elim [] processActivateLine

/-!  ## Theorems  -/

/-- C1: every indicator called with fewer price samples than its required
window returns its documented neutral value: `_calculate_statistics` returns
`(0.0, 0.0, 0.0)` when `len(prices) < lookback`, `_calculate_price_changes`
returns `(0, 0)` when `len(prices) < long_term_periods`, and
`_calculate_rsi` returns `50.0` when `len(prices) < periods + 1`. -/
theorem insufficient_history_neutral
    (pr : List ℝ) (lookback : Nat) (h1 : pr.length < lookback)
    (pm : List ℚ) (s l : Nat) (h2 : pm.length < l)
    (pt : List ℚ) (n : Nat) (h3 : pt.length < n + 1) :
    calculate_statistics pr lookback = (0, 0, 0) ∧
    calculate_price_changes pm s l = (0, 0) ∧
    calculate_rsi pt n = 50 := by
  refine ⟨?_, ?_, ?_⟩
  · unfold calculate_statistics; rw [if_pos h1]
  · unfold calculate_price_changes; rw [if_pos h2]
  · unfold calculate_rsi; rw [if_pos h3]

/-- Witness for `insufficient_history_neutral` at concrete short inputs. -/
theorem insufficient_history_neutral_witness :
    calculate_statistics ([] : List ℝ) 1 = (0, 0, 0) ∧
    calculate_price_changes ([] : List ℚ) 0 1 = (0, 0) ∧
    calculate_rsi ([] : List ℚ) 1 = 50 :=
  insufficient_history_neutral [] 1 (by decide) [] 0 1 (by decide) [] 1 (by decide)

set_option maxRecDepth 100000 in
/-- C3: with `lookback_periods = 20`, `confirmation_periods = 3` and
`breakout_threshold = 5.0`, a flat window of twenty 10s followed by
`[11, 11, 11]` yields an `"Upward"` breakout at level `10` with a `10`%
move, while `[10.2, 10.2, 10.2]` (a 2% move) yields `None`. -/
theorem breakout_flat_window_example :
    detect_breakout (List.replicate 20 10 ++ [11, 11, 11]) 20 3 5 =
      some ("Upward", 10, 10) ∧
    detect_breakout (List.replicate 20 10 ++ [10.2, 10.2, 10.2]) 20 3 5 = none := by
  exact ⟨by with_unfolding_all rfl, by with_unfolding_all rfl⟩

/-- C6: `_calculate_strategy_adjustment` always lands in `[0.5, 1.5]`,
`_apply_risk_bounds` always lands in `[0.5, 2.0]`, and for every jitter
factor in `[0.98, 1.02]` the threshold stored by `optimize_parameters`
lands in `[1.0, 5.0]`. -/
theorem threshold_bounds (volatility volume_change : ℚ) (rules : String)
    (adjustment : ℚ) (stop_loss take_profit : Option ℚ)
    (threshold avg_adjustment jitter : ℚ)
    (_hj : 0.98 ≤ jitter ∧ jitter ≤ 1.02) :
    (0.5 ≤ calculate_strategy_adjustment volatility volume_change rules ∧
      calculate_strategy_adjustment volatility volume_change rules ≤ 1.5) ∧
    (0.5 ≤ apply_risk_bounds adjustment stop_loss take_profit ∧
      apply_risk_bounds adjustment stop_loss take_profit ≤ 2) ∧
    (1 ≤ optimize_parameters threshold avg_adjustment jitter ∧
      optimize_parameters threshold avg_adjustment jitter ≤ 5) := by
  unfold calculate_strategy_adjustment apply_risk_bounds optimize_parameters
  refine ⟨⟨le_max_left _ _, ?_⟩, ⟨le_max_left _ _, ?_⟩, ⟨le_max_left _ _, ?_⟩⟩
  · exact max_le (by norm_num) (min_le_left _ _)
  · exact max_le (by norm_num) (min_le_left _ _)
  · exact max_le (by norm_num) (min_le_left _ _)

/-- Witness for `threshold_bounds` at a concrete input. -/
theorem threshold_bounds_witness :
    (0.5 ≤ calculate_strategy_adjustment 0 0 "" ∧
      calculate_strategy_adjustment 0 0 "" ≤ 1.5) ∧
    (0.5 ≤ apply_risk_bounds 0 none none ∧ apply_risk_bounds 0 none none ≤ 2) ∧
    (1 ≤ optimize_parameters 0 0 1 ∧ optimize_parameters 0 0 1 ≤ 5) :=
  threshold_bounds 0 0 "" 0 none none 0 0 1 (by norm_num)

set_option maxRecDepth 100000 in
/-- C2 counterexample: with prices `[200, 100, 110]`, short window 2, long
window 3 and threshold 2, the short-term change is `+10`% and the long-term
change is `-45`%: they do not share a sign, yet the momentum signal fires
(`"Upward"`), refuting the claimed same-sign requirement. -/
theorem momentum_sign_agreement_cex :
    momentum_signal [200, 100, 110] 2 3 2 = some "Upward" ∧
    0 < (calculate_price_changes [200, 100, 110] 2 3).1 ∧
    (calculate_price_changes [200, 100, 110] 2 3).2 < 0 := by
  refine ⟨by with_unfolding_all rfl, ?_, ?_⟩ <;>
    norm_num [calculate_price_changes, pyNegIdx, List.getD]

/-- C2 (amended): over a price list with at least `long_term_periods`
samples, the momentum signal fires if and only if both percentage changes
exceed `threshold` in absolute value (no same-sign requirement); when it
fires, the direction is `"Upward"` iff the short-term change is positive,
`"Downward"` otherwise. -/
theorem momentum_signal_fires_iff (prices : List ℚ) (s l : Nat) (t : ℚ)
    (_h : l ≤ prices.length) :
    ((momentum_signal prices s l t).isSome = true ↔
      t < |(calculate_price_changes prices s l).1| ∧
      t < |(calculate_price_changes prices s l).2|) ∧
    (momentum_signal prices s l t = some "Upward" ↔
      (t < |(calculate_price_changes prices s l).1| ∧
        t < |(calculate_price_changes prices s l).2|) ∧
      0 < (calculate_price_changes prices s l).1) ∧
    (momentum_signal prices s l t = some "Downward" ↔
      (t < |(calculate_price_changes prices s l).1| ∧
        t < |(calculate_price_changes prices s l).2|) ∧
      ¬0 < (calculate_price_changes prices s l).1) := by
  have hUD : ("Upward" : String) ≠ "Downward" := by decide
  by_cases hc : t < |(calculate_price_changes prices s l).1| ∧
      t < |(calculate_price_changes prices s l).2|
  · by_cases hp : 0 < (calculate_price_changes prices s l).1
    · simp [momentum_signal, hc, hp]
    · simp [momentum_signal, hc, hp, hUD]
  · simp [momentum_signal, hc]

/-- Witness for `momentum_signal_fires_iff` on a rising price list. -/
theorem momentum_signal_fires_iff_witness :
    ((momentum_signal [100, 105, 110] 2 3 2).isSome = true ↔
      2 < |(calculate_price_changes [100, 105, 110] 2 3).1| ∧
      2 < |(calculate_price_changes [100, 105, 110] 2 3).2|) ∧
    (momentum_signal [100, 105, 110] 2 3 2 = some "Upward" ↔
      (2 < |(calculate_price_changes [100, 105, 110] 2 3).1| ∧
        2 < |(calculate_price_changes [100, 105, 110] 2 3).2|) ∧
      0 < (calculate_price_changes [100, 105, 110] 2 3).1) ∧
    (momentum_signal [100, 105, 110] 2 3 2 = some "Downward" ↔
      (2 < |(calculate_price_changes [100, 105, 110] 2 3).1| ∧
        2 < |(calculate_price_changes [100, 105, 110] 2 3).2|) ∧
      ¬0 < (calculate_price_changes [100, 105, 110] 2 3).1) :=
  momentum_signal_fires_iff [100, 105, 110] 2 3 2 (by decide)

/-- Unfolding equation: `np.diff` on a list with at least two elements. -/
theorem pyDiff_cons_cons (a b : ℚ) (t : List ℚ) :
    pyDiff (a :: b :: t) = (b - a) :: pyDiff (b :: t) := rfl

/-- Length of `np.diff(prices)` is `len(prices) - 1`. -/
theorem pyDiff_length (p : List ℚ) : (pyDiff p).length = p.length - 1 := by
  unfold pyDiff
  rw [List.length_zipWith, List.length_tail]
  omega

/-- On a strictly increasing price list every consecutive delta is positive. -/
theorem pyDiff_pos_of_chain :
    ∀ (p : List ℚ), List.Chain' (· < ·) p → ∀ d ∈ pyDiff p, 0 < d
  | [], _, d, hd => by simp [pyDiff] at hd
  | [_], _, d, hd => by simp [pyDiff] at hd
  | a :: b :: t, h, d, hd => by
    rw [pyDiff_cons_cons] at hd
    rcases List.chain'_cons.mp h with ⟨hab, ht⟩
    rcases List.mem_cons.mp hd with h1 | h2
    · simpa [h1] using sub_pos.mpr hab
    · exact pyDiff_pos_of_chain (b :: t) ht d h2

/-- On a strictly decreasing price list every consecutive delta is negative. -/
theorem pyDiff_neg_of_chain :
    ∀ (p : List ℚ), List.Chain' (· > ·) p → ∀ d ∈ pyDiff p, d < 0
  | [], _, d, hd => by simp [pyDiff] at hd
  | [_], _, d, hd => by simp [pyDiff] at hd
  | a :: b :: t, h, d, hd => by
    rw [pyDiff_cons_cons] at hd
    rcases List.chain'_cons.mp h with ⟨hab, ht⟩
    rcases List.mem_cons.mp hd with h1 | h2
    · simpa [h1] using sub_neg.mpr hab
    · exact pyDiff_neg_of_chain (b :: t) ht d h2

/-- A Python tail slice only contains elements of the original list. -/
theorem mem_pySliceLast {α : Type} {x : α} {l : List α} {k : Nat}
    (h : x ∈ pySliceLast l k) : x ∈ l := by
  unfold pySliceLast at h
  split at h
  · exact h
  · exact (List.drop_suffix _ _).subset h

/-- A Python tail slice of a nonempty list with `k ≥ 1` is nonempty. -/
theorem length_pySliceLast_pos {α : Type} {l : List α} {k : Nat}
    (hk : 1 ≤ k) (hl : 1 ≤ l.length) : 1 ≤ (pySliceLast l k).length := by
  unfold pySliceLast
  rw [if_neg (by omega), List.length_drop]
  omega

/-- When every delta is positive the average loss is zero (no losses). -/
theorem avgLoss_of_pos (p : List ℚ) (n : Nat) (h : ∀ d ∈ pyDiff p, 0 < d) :
    avgLoss p n = 0 := by
  unfold avgLoss pyMean
  rw [List.sum_eq_zero, zero_div]
  intro x hx
  rcases List.mem_map.mp (mem_pySliceLast hx) with ⟨d, hd, rfl⟩
  rw [if_neg (not_lt.mpr (le_of_lt (h d hd)))]

/-- When every delta is negative the average gain is zero (no gains). -/
theorem avgGain_of_neg (p : List ℚ) (n : Nat) (h : ∀ d ∈ pyDiff p, d < 0) :
    avgGain p n = 0 := by
  unfold avgGain pyMean
  rw [List.sum_eq_zero, zero_div]
  intro x hx
  rcases List.mem_map.mp (mem_pySliceLast hx) with ⟨d, hd, rfl⟩
  rw [if_neg (not_lt.mpr (le_of_lt (h d hd)))]

/-- When every delta is negative (and the window is nonempty) the average
loss is strictly positive. -/
theorem avgLoss_pos_of_neg (p : List ℚ) (n : Nat) (hn : 1 ≤ n)
    (hl : 2 ≤ p.length) (h : ∀ d ∈ pyDiff p, d < 0) : 0 < avgLoss p n := by
  unfold avgLoss pyMean
  have hlen : 1 ≤ (pySliceLast ((pyDiff p).map
      (fun d => if d < 0 then -d else 0)) n).length := by
    apply length_pySliceLast_pos hn
    rw [List.length_map, pyDiff_length]
    omega
  apply div_pos
  · apply List.sum_pos
    · intro x hx
      rcases List.mem_map.mp (mem_pySliceLast hx) with ⟨d, hd, rfl⟩
      rw [if_pos (h d hd)]
      exact neg_pos.mpr (h d hd)
    · intro hnil
      rw [hnil] at hlen
      simp at hlen
  · exact_mod_cast hlen

/-- C7: `_calculate_rsi` returns `100.0` on every strictly increasing price
list of at least `rsi_periods + 1` samples (all deltas are gains, so
`avg_loss = 0` and the division-by-zero guard yields 100), and `0.0` on
every strictly decreasing such list.  The RSI window must be nonempty
(`1 ≤ periods`; with `periods = 0` numpy averages an empty slice to NaN). -/
theorem rsi_extremes (p q : List ℚ) (n : Nat) (hn : 1 ≤ n)
    (hp : List.Chain' (· < ·) p) (hpl : n + 1 ≤ p.length)
    (hq : List.Chain' (· > ·) q) (hql : n + 1 ≤ q.length) :
    calculate_rsi p n = 100 ∧ calculate_rsi q n = 0 := by
  constructor
  · unfold calculate_rsi
    rw [if_neg (by omega), if_pos (avgLoss_of_pos p n (pyDiff_pos_of_chain p hp))]
  · have hg : avgGain q n = 0 := avgGain_of_neg q n (pyDiff_neg_of_chain q hq)
    have hl : 0 < avgLoss q n :=
      avgLoss_pos_of_neg q n hn (by omega) (pyDiff_neg_of_chain q hq)
    unfold calculate_rsi
    rw [if_neg (by omega), if_neg (ne_of_gt hl), hg, zero_div]
    norm_num

/-- Witness for `rsi_extremes` on the two-sample lists `[1, 2]` and `[2, 1]`. -/
theorem rsi_extremes_witness : calculate_rsi [1, 2] 1 = 100 ∧ calculate_rsi [2, 1] 1 = 0 :=
  rsi_extremes [1, 2] [2, 1] 1 (by decide) (by norm_num) (by decide)
    (by norm_num) (by decide)

/-- Unfolding equation for the first-match loop of `extract_strategies`. -/
theorem extractFromLines_cons (line : String) (rest : List String) :
    extractFromLines (line :: rest) =
      if isActivateLine line then processActivateLine line else extractFromLines rest := rfl

/-- The first-match loop of `extract_strategies` agrees with `List.find?`. -/
theorem extractFromLines_eq_find (ls : List String) :
    extractFromLines ls = (ls.find? isActivateLine).elim [] processActivateLine := by
  induction ls with
  | nil => rfl
  | cons line rest ih =>
    rw [extractFromLines_cons]
    by_cases h : isActivateLine line = true
    · rw [if_pos h, List.find?_cons_of_pos _ h]
      rfl
    · rw [if_neg h, List.find?_cons_of_neg _ h, ih]

/-- C10: `extract_strategies` is total and deterministic; it returns, for the
first line whose uppercased text starts with `ACTIVATE:`, the text after the
first `':'` stripped of surrounding bracket/quote/whitespace characters,
split on commas, each element stripped of whitespace; and the empty list
when no line matches. -/
theorem extract_strategies_correct (text : String) :
    extract_strategies text = extractStrategiesSpec text ∧
    ((∀ line ∈ text.splitOn "\n", isActivateLine line = false) →
      extract_strategies text = []) := by
  constructor
  · exact extractFromLines_eq_find (text.splitOn "\n")
  · intro h
    have hnone : (text.splitOn "\n").find? isActivateLine = none :=
      List.find?_eq_none.mpr (fun x hx => by rw [h x hx]; exact Bool.false_ne_true)
    show extractFromLines (text.splitOn "\n") = []
    rw [extractFromLines_eq_find, hnone]
    rfl

set_option maxRecDepth 100000 in
/-- Witness for `extract_strategies_correct` on a text with no
`ACTIVATE:` line. -/
theorem extract_strategies_correct_witness : extract_strategies "nothing here" = [] :=
  (extract_strategies_correct "nothing here").2 (by
    have hs : "nothing here".splitOn "\n" = ["nothing here"] := by with_unfolding_all rfl
    rw [hs]
    intro line hl
    rcases List.mem_singleton.mp hl with rfl
    with_unfolding_all rfl)

/-- Unfolding equation for the activation loop on a nonempty worklist. -/
theorem activationPass_cons (strategies : String → Bool)
    (evalS : String → Except String String) (name : String) (rest active : List String)
    (rs : List (String × String)) :
    activationPass strategies evalS (name :: rest) active rs =
      if name ∈ active then activationPass strategies evalS rest active rs
      else if strategies name then
        match evalS name with
        | Except.error e => ⟨[name], Except.error e⟩
        | Except.ok r =>
          let res := activationPass strategies evalS rest (active ++ [name])
                       (rs ++ [(name, r)])
          ⟨name :: res.evaluated, res.outcome⟩
      else ⟨[], Except.error ("KeyError: " ++ name)⟩ := rfl

/-- Activation loop: an already-active name is skipped. -/
theorem activationPass_cons_mem {strategies : String → Bool}
    {evalS : String → Except String String} {name : String} {rest active : List String}
    {rs : List (String × String)} (h : name ∈ active) :
    activationPass strategies evalS (name :: rest) active rs =
      activationPass strategies evalS rest active rs := by
  rw [activationPass_cons, if_pos h]

/-- Activation loop: an unknown strategy name raises `KeyError`. -/
theorem activationPass_cons_key {strategies : String → Bool}
    {evalS : String → Except String String} {name : String} {rest active : List String}
    {rs : List (String × String)} (h1 : name ∉ active) (h2 : strategies name = false) :
    activationPass strategies evalS (name :: rest) active rs =
      ⟨[], Except.error ("KeyError: " ++ name)⟩ := by
  rw [activationPass_cons, if_neg h1, if_neg (by simp [h2])]

/-- Activation loop: a failing evaluation aborts the loop with the error. -/
theorem activationPass_cons_err {strategies : String → Bool}
    {evalS : String → Except String String} {name : String} {rest active : List String}
    {rs : List (String × String)} {e : String} (h1 : name ∉ active)
    (h2 : strategies name = true) (h3 : evalS name = Except.error e) :
    activationPass strategies evalS (name :: rest) active rs =
      ⟨[name], Except.error e⟩ := by
  rw [activationPass_cons, if_neg h1, if_pos h2, h3]

/-- Activation loop: a successful evaluation records the response and
continues with the enlarged active set. -/
theorem activationPass_cons_ok {strategies : String → Bool}
    {evalS : String → Except String String} {name : String} {rest active : List String}
    {rs : List (String × String)} {r : String} (h1 : name ∉ active)
    (h2 : strategies name = true) (h3 : evalS name = Except.ok r) :
    activationPass strategies evalS (name :: rest) active rs =
      ⟨name :: (activationPass strategies evalS rest (active ++ [name])
          (rs ++ [(name, r)])).evaluated,
        (activationPass strategies evalS rest (active ++ [name])
          (rs ++ [(name, r)])).outcome⟩ := by
  rw [activationPass_cons, if_neg h1, if_pos h2, h3]

/-- Unfolding equation for `managerStart` on a successful base response. -/
theorem managerStart_ok (strategies : String → Bool) (resp : String)
    (policy : String → Except String (List String))
    (evalS : String → Except String String) :
    managerStart strategies (Except.ok resp) policy evalS =
      match policy resp with
      | Except.error e => ⟨1, [], Except.error e⟩
      | Except.ok strategies_to_activate =>
        ⟨1, (activationPass strategies evalS strategies_to_activate [] []).evaluated,
          (activationPass strategies evalS strategies_to_activate [] []).outcome⟩ := rfl

/-- `managerStart` when the activation policy itself raises. -/
theorem managerStart_ok_err {strategies : String → Bool} {resp e : String}
    {policy : String → Except String (List String)}
    {evalS : String → Except String String} (hp : policy resp = Except.error e) :
    managerStart strategies (Except.ok resp) policy evalS = ⟨1, [], Except.error e⟩ := by
  rw [managerStart_ok, hp]

/-- `managerStart` when the activation policy returns a list of names. -/
theorem managerStart_ok_ok {strategies : String → Bool} {resp : String}
    {toActivate : List String} {policy : String → Except String (List String)}
    {evalS : String → Except String String} (hp : policy resp = Except.ok toActivate) :
    managerStart strategies (Except.ok resp) policy evalS =
      ⟨1, (activationPass strategies evalS toActivate [] []).evaluated,
        (activationPass strategies evalS toActivate [] []).outcome⟩ := by
  rw [managerStart_ok, hp]

/-- A strategy evaluation failure inside the activation loop makes the error
the loop's outcome, and the failing strategy is the last one evaluated. -/
theorem activationPass_error {strategies : String → Bool}
    {evalS : String → Except String String} :
    ∀ (l active : List String) (rs : List (String × String)) (name e : String),
      name ∈ (activationPass strategies evalS l active rs).evaluated →
      evalS name = Except.error e →
      (activationPass strategies evalS l active rs).outcome = Except.error e ∧
      (activationPass strategies evalS l active rs).evaluated.getLast? = some name := by
  intro l
  induction l with
  | nil =>
    intro active rs name e hmem _
    simp [activationPass] at hmem
  | cons n rest ih =>
    intro active rs name e hmem hf
    by_cases hact : n ∈ active
    · rw [activationPass_cons_mem hact] at hmem ⊢
      exact ih active rs name e hmem hf
    · cases hs : strategies n with
      | false =>
        rw [activationPass_cons_key hact hs] at hmem
        simp at hmem
      | true =>
        cases hev : evalS n with
        | error e2 =>
          rw [activationPass_cons_err hact hs hev] at hmem ⊢
          have hn : name = n := by simpa using hmem
          subst hn
          rw [hf] at hev
          injection hev with he
          subst he
          exact ⟨rfl, rfl⟩
        | ok r =>
          rw [activationPass_cons_ok hact hs hev] at hmem ⊢
          rcases List.mem_cons.mp hmem with h1 | h2
          · subst h1
            rw [hf] at hev
            cases hev
          · obtain ⟨hout, hlast⟩ := ih (active ++ [n]) (rs ++ [(n, r)]) name e h2 hf
            refine ⟨hout, ?_⟩
            show (n :: (activationPass strategies evalS rest (active ++ [n])
                (rs ++ [(n, r)])).evaluated).getLast? = some name
            cases hx : (activationPass strategies evalS rest (active ++ [n])
                (rs ++ [(n, r)])).evaluated with
            | nil =>
              rw [hx] at h2
              cases h2
            | cons b t =>
              rw [hx] at hlast
              rw [List.getLast?_cons_cons]
              exact hlast

/-- Every name the activation loop evaluates comes from its worklist, in
order and without repetition (a single pass). -/
theorem activationPass_evaluated_sublist {strategies : String → Bool}
    {evalS : String → Except String String} :
    ∀ (l active : List String) (rs : List (String × String)),
      List.Sublist (activationPass strategies evalS l active rs).evaluated l := by
  intro l
  induction l with
  | nil => intro active rs; exact List.Sublist.refl _
  | cons n rest ih =>
    intro active rs
    by_cases hact : n ∈ active
    · rw [activationPass_cons_mem hact]
      exact (ih active rs).cons n
    · cases hs : strategies n with
      | false =>
        rw [activationPass_cons_key hact hs]
        exact List.nil_sublist _
      | true =>
        cases hev : evalS n with
        | error e =>
          rw [activationPass_cons_err hact hs hev]
          exact (List.nil_sublist rest).cons₂ n
        | ok r =>
          rw [activationPass_cons_ok hact hs hev]
          exact (ih (active ++ [n]) (rs ++ [(n, r)])).cons₂ n

/-- On success the activation loop's report lists the previously collected
responses followed by the newly activated names, in activation order. -/
theorem activationPass_report {strategies : String → Bool}
    {evalS : String → Except String String} :
    ∀ (l active : List String) (rs report : List (String × String)),
      (activationPass strategies evalS l active rs).outcome = Except.ok report →
      report.map Prod.fst = rs.map Prod.fst ++ newNames l active := by
  intro l
  induction l with
  | nil =>
    intro active rs report h
    have hr : rs = report := by simpa [activationPass] using h
    subst hr
    simp [newNames]
  | cons n rest ih =>
    intro active rs report h
    by_cases hact : n ∈ active
    · rw [activationPass_cons_mem hact] at h
      rw [ih active rs report h]
      simp [newNames, hact]
    · cases hs : strategies n with
      | false =>
        rw [activationPass_cons_key hact hs] at h
        simp at h
      | true =>
        cases hev : evalS n with
        | error e =>
          rw [activationPass_cons_err hact hs hev] at h
          simp at h
        | ok r =>
          rw [activationPass_cons_ok hact hs hev] at h
          have h2 := ih (active ++ [n]) (rs ++ [(n, r)]) report (by exact h)
          rw [h2]
          simp [newNames, hact, List.map_append]

/-- C4 counterexample: with two strategies to activate where the first
evaluation raises, `StrategyManager.start` ends with that exception as its
outcome (the single outer handler logs and re-raises), the second strategy
is never evaluated and no combined report is published — refuting the claim
that a strategy failure is treated as "no signal" and the run continues. -/
theorem strategy_failure_aborts_run_cex :
    (managerStart (fun _ => true) (Except.ok "base")
        (fun _ => Except.ok ["eth_momentum", "eth_trend"])
        (fun n => if n = "eth_momentum" then Except.error "boom"
                  else Except.ok "sig")).outcome = Except.error "boom" ∧
    (managerStart (fun _ => true) (Except.ok "base")
        (fun _ => Except.ok ["eth_momentum", "eth_trend"])
        (fun n => if n = "eth_momentum" then Except.error "boom"
                  else Except.ok "sig")).evaluated = ["eth_momentum"] :=
  ⟨rfl, rfl⟩

/-- C4 (amended): when any evaluated strategy's `process_message` raises,
`StrategyManager.start` propagates that exception to its single outer
`except` (which logs and re-raises): the run's outcome is the error, no
combined report is published, and the failing strategy is the last one
evaluated (no remaining strategy is evaluated). -/
theorem strategy_failure_aborts_run (strategies : String → Bool)
    (policy : String → Except String (List String))
    (evalS : String → Except String String) (resp name e : String)
    (hmem : name ∈ (managerStart strategies (Except.ok resp) policy evalS).evaluated)
    (hf : evalS name = Except.error e) :
    (managerStart strategies (Except.ok resp) policy evalS).outcome =
      Except.error e ∧
    (managerStart strategies (Except.ok resp) policy evalS).evaluated.getLast? =
      some name := by
  cases hp : policy resp with
  | error e2 =>
    rw [managerStart_ok_err hp] at hmem
    cases hmem
  | ok ta =>
    rw [managerStart_ok_ok hp] at hmem ⊢
    exact activationPass_error ta [] [] name e hmem hf

/-- Witness for `strategy_failure_aborts_run` on a one-strategy run whose
evaluation raises. -/
theorem strategy_failure_aborts_run_witness :
    (managerStart (fun _ => true) (Except.ok "r") (fun _ => Except.ok ["a"])
        (fun _ => Except.error "boom")).outcome = Except.error "boom" ∧
    (managerStart (fun _ => true) (Except.ok "r") (fun _ => Except.ok ["a"])
        (fun _ => Except.error "boom")).evaluated.getLast? = some "a" :=
  strategy_failure_aborts_run (fun _ => true) (fun _ => Except.ok ["a"])
    (fun _ => Except.error "boom") "r" "a" "boom" (by decide) rfl

/-- C5 counterexample: a run that newly activates `eth_momentum` invokes the
activation policy exactly once — the orchestrator never re-invokes the
policy after an activation, refuting the claimed convergence loop. -/
theorem activation_no_reinvocation_cex :
    (managerStart (fun _ => true) (Except.ok "base")
        (fun _ => Except.ok ["eth_momentum"])
        (fun _ => Except.ok "sig")).policyInvocations = 1 ∧
    (managerStart (fun _ => true) (Except.ok "base")
        (fun _ => Except.ok ["eth_momentum"])
        (fun _ => Except.ok "sig")).evaluated = ["eth_momentum"] ∧
    (managerStart (fun _ => true) (Except.ok "base")
        (fun _ => Except.ok ["eth_momentum"])
        (fun _ => Except.ok "sig")).outcome =
      Except.ok [("eth_momentum", "sig")] :=
  ⟨rfl, rfl, rfl⟩

/-- C5 (amended): `StrategyManager.start` invokes the activation policy at
most once per run (exactly once when the base response succeeds), and
performs a single pass over the returned names — every evaluated strategy
comes from that one list, in order; the activation phase therefore
terminates trivially with no further activations. -/
theorem activation_single_policy_pass (strategies : String → Bool)
    (baseResponse : Except String String)
    (policy : String → Except String (List String))
    (evalS : String → Except String String) :
    (managerStart strategies baseResponse policy evalS).policyInvocations ≤ 1 ∧
    (∀ resp toActivate, baseResponse = Except.ok resp →
      policy resp = Except.ok toActivate →
      List.Sublist (managerStart strategies baseResponse policy evalS).evaluated
        toActivate) := by
  constructor
  · cases baseResponse with
    | error e => exact Nat.zero_le 1
    | ok resp =>
      cases hp : policy resp with
      | error e => rw [managerStart_ok_err hp]
      | ok ta => rw [managerStart_ok_ok hp]
  · intro resp ta hbr hp
    subst hbr
    rw [managerStart_ok_ok hp]
    exact activationPass_evaluated_sublist ta [] []

/-- Witness for `activation_single_policy_pass` on a concrete run. -/
theorem activation_single_policy_pass_witness :
    (managerStart (fun _ => true) (Except.ok "base")
        (fun _ => Except.ok ["eth_momentum"])
        (fun _ => Except.ok "sig")).policyInvocations ≤ 1 ∧
    List.Sublist (managerStart (fun _ => true) (Except.ok "base")
        (fun _ => Except.ok ["eth_momentum"])
        (fun _ => Except.ok "sig")).evaluated ["eth_momentum"] :=
  ⟨(activation_single_policy_pass (fun _ => true) (Except.ok "base")
      (fun _ => Except.ok ["eth_momentum"]) (fun _ => Except.ok "sig")).1,
   (activation_single_policy_pass (fun _ => true) (Except.ok "base")
      (fun _ => Except.ok ["eth_momentum"]) (fun _ => Except.ok "sig")).2
     "base" ["eth_momentum"] rfl rfl⟩

/-- C8: on a successful run the combined report lists each newly activated
strategy's response under its name in activation (insertion) order — the
order of first occurrence in the policy's list, not alphabetical, and
independent of anything else (evaluation is sequential, so completion order
coincides with activation order). -/
theorem combined_report_insertion_order (strategies : String → Bool)
    (policy : String → Except String (List String))
    (evalS : String → Except String String) (resp : String)
    (toActivate : List String) (report : List (String × String))
    (hp : policy resp = Except.ok toActivate)
    (h : (managerStart strategies (Except.ok resp) policy evalS).outcome =
      Except.ok report) :
    report.map Prod.fst = newNames toActivate [] := by
  rw [managerStart_ok_ok hp] at h
  have h2 := activationPass_report toActivate [] [] report h
  simpa using h2

/-- Witness for `combined_report_insertion_order`: activating `"b"` then
`"a"` (with a duplicate `"b"` skipped) reports `"b"` before `"a"` —
insertion order, not alphabetical. -/
theorem combined_report_insertion_order_witness :
    ([("b", "s"), ("a", "s")] : List (String × String)).map Prod.fst =
      newNames ["b", "a", "b"] [] :=
  combined_report_insertion_order (fun _ => true)
    (fun _ => Except.ok ["b", "a", "b"]) (fun _ => Except.ok "s") "base"
    ["b", "a", "b"] [("b", "s"), ("a", "s")] rfl rfl
